import Mathlib

/-!
Verification of the Argos credential bridge (src/src-tauri/src/main.rs).

The repository wraps the OS secret store behind three commands,
`keychain_set`, `keychain_get` and `keychain_delete`, each of which maps
the outcome of `keyring::Entry::new` and the subsequent entry operation
into a uniform `KeychainResult` record.

The OS secret store itself lives outside the repository, so it is
modelled from the spec as a map addressed by a `(service, key)` pair.
Platform failures (of `Entry::new` and of the entry operation) are
modelled as explicit optional fault parameters carrying the platform
error's message string; `format!("{}", e)` renders exactly that message,
so it is the identity on the modelled errors.
-/

namespace Argos

/-- The uniform result record returned by all three commands
(struct `KeychainResult` in main.rs). -/
structure KeychainResult where
  success : Bool
  value : Option String
  error : Option String
  deriving Repr, DecidableEq

/-- Modelled from the spec: the OS secret store, an "OS-provided facility
for storing credentials, addressed by a (service, key) pair". -/
def Store : Type := String → String → Option String

/-- A store holding no credentials at all. -/
def emptyStore : Store := fun _ _ => none

/-- Modelled from the spec: reading the credential stored under
`(service, key)`, if any. -/
def storeLookup (st : Store) (service key : String) : Option String :=
  st service key

/-- Modelled from the spec: storing `value` under the `(service, key)`
identity, leaving every other pair untouched. -/
def storeInsert (st : Store) (service key value : String) : Store :=
  fun s k => if s = service then (if k = key then some value else st s k) else st s k

/-- Modelled from the spec: removing the credential stored under
`(service, key)`, leaving every other pair untouched. -/
def storeErase (st : Store) (service key : String) : Store :=
  fun s k => if s = service then (if k = key then none else st s k) else st s k

/-- Modelled from the spec: the platform error message produced by the
keyring library when no credential exists for the requested entry. -/
def noEntryError : String := "No matching entry found in secure storage"

/-- Rust `format!("{}", e)`: renders the platform error's Display text.
Platform errors are modelled by their message strings, so this is the
identity on them. -/
def formatError (e : String) : String := e

/-- Modelled from the spec: `keyring::Entry::new(&service, &key)`, which
may fail with a platform error (the `fault` parameter). -/
def entryNew (fault : Option String) : Except String Unit :=
  match fault with
  | some e => Except.error e
  | none => Except.ok ()

/-- Modelled from the spec: `entry.set_password(&value)`. On success the
store maps `(service, key)` to `value`; a platform fault leaves the store
unchanged and surfaces the platform error. -/
def entrySetPassword (st : Store) (service key value : String)
    (fault : Option String) : Except String Store :=
  match fault with
  | some e => Except.error e
  | none => Except.ok (storeInsert st service key value)

/-- Modelled from the spec: `entry.get_password()`. Returns the stored
string, or the no-entry platform error when `(service, key)` holds no
credential; a platform fault surfaces its error instead. -/
def entryGetPassword (st : Store) (service key : String)
    (fault : Option String) : Except String String :=
  match fault with
  | some e => Except.error e
  | none =>
    match storeLookup st service key with
    | some v => Except.ok v
    | none => Except.error noEntryError

/-- Modelled from the spec: `entry.delete_credential()`. On success the
`(service, key)` credential is removed; deleting a missing credential
yields the no-entry platform error; a platform fault surfaces its error. -/
def entryDeleteCredential (st : Store) (service key : String)
    (fault : Option String) : Except String Store :=
  match fault with
  | some e => Except.error e
  | none =>
    match storeLookup st service key with
    | some _ => Except.ok (storeErase st service key)
    | none => Except.error noEntryError

/-- `keychain_set` from main.rs: build the entry, set the password, and
map both failure sites into the result record. Returns the result paired
with the store after the call. -/
def keychain_set (service key value : String) (st : Store)
    (newFault setFault : Option String) : KeychainResult × Store :=
  match entryNew newFault with
  | Except.ok _ =>
    match entrySetPassword st service key value setFault with
    | Except.ok st' => (⟨true, none, none⟩, st')
    | Except.error e => (⟨false, none, some (formatError e)⟩, st)
  | Except.error e => (⟨false, none, some (formatError e)⟩, st)

/-- `keychain_get` from main.rs: build the entry, read the password, and
map both failure sites into the result record. Reading never changes the
store, so only the result is returned. -/
def keychain_get (service key : String) (st : Store)
    (newFault getFault : Option String) : KeychainResult :=
  match entryNew newFault with
  | Except.ok _ =>
    match entryGetPassword st service key getFault with
    | Except.ok password => ⟨true, some password, none⟩
    | Except.error e => ⟨false, none, some (formatError e)⟩
  | Except.error e => ⟨false, none, some (formatError e)⟩

/-- `keychain_delete` from main.rs: build the entry, delete the
credential, and map both failure sites into the result record. Returns
the result paired with the store after the call. -/
def keychain_delete (service key : String) (st : Store)
    (newFault delFault : Option String) : KeychainResult × Store :=
  match entryNew newFault with
  | Except.ok _ =>
    match entryDeleteCredential st service key delFault with
    | Except.ok st' => (⟨true, none, none⟩, st')
    | Except.error e => (⟨false, none, some (formatError e)⟩, st)
  | Except.error e => (⟨false, none, some (formatError e)⟩, st)

/-- Looking up the pair just inserted yields the inserted value. -/
theorem storeLookup_insert_self (st : Store) (s k v : String) :
    storeLookup (storeInsert st s k v) s k = some v := by
  simp [storeLookup, storeInsert]

/-- Looking up the pair just erased yields nothing. -/
theorem storeLookup_erase_self (st : Store) (s k : String) :
    storeLookup (storeErase st s k) s k = none := by
  simp [storeLookup, storeErase]

/-- Insertion leaves every other pair unchanged. -/
theorem storeLookup_insert_other (st : Store) (s k v s' k' : String)
    (h : ¬(s' = s ∧ k' = k)) :
    storeLookup (storeInsert st s k v) s' k' = storeLookup st s' k' := by
  by_cases h1 : s' = s
  · by_cases h2 : k' = k
    · exact absurd ⟨h1, h2⟩ h
    · simp [storeLookup, storeInsert, h1, h2]
  · simp [storeLookup, storeInsert, h1]

/-- Erasure leaves every other pair unchanged. -/
theorem storeLookup_erase_other (st : Store) (s k s' k' : String)
    (h : ¬(s' = s ∧ k' = k)) :
    storeLookup (storeErase st s k) s' k' = storeLookup st s' k' := by
  by_cases h1 : s' = s
  · by_cases h2 : k' = k
    · exact absurd ⟨h1, h2⟩ h
    · simp [storeLookup, storeErase, h1, h2]
  · simp [storeLookup, storeErase, h1]

/-- C1: for every service, key and value, when `keychain_set` succeeds,
a subsequent `keychain_get` on the same `(service, key)` against the
resulting store returns `success = true` and `value = some value`, that
exact value. -/
theorem set_then_get_returns_value (service key value : String) (st : Store)
    (nf sf : Option String)
    (h : (keychain_set service key value st nf sf).1.success = true) :
    (keychain_get service key (keychain_set service key value st nf sf).2
        none none).success = true ∧
    (keychain_get service key (keychain_set service key value st nf sf).2
        none none).value = some value := by
  cases nf with
  | some e => simp [keychain_set, entryNew] at h
  | none =>
    cases sf with
    | some e => simp [keychain_set, entryNew, entrySetPassword] at h
    | none =>
      simp [keychain_set, keychain_get, entryNew, entrySetPassword,
        entryGetPassword, storeLookup_insert_self]

/-- Witness for C1 at a concrete input. -/
theorem set_then_get_returns_value_witness :
    (keychain_get "argos" "token"
        (keychain_set "argos" "token" "s3cret" emptyStore none none).2
        none none).success = true ∧
    (keychain_get "argos" "token"
        (keychain_set "argos" "token" "s3cret" emptyStore none none).2
        none none).value = some "s3cret" :=
  set_then_get_returns_value "argos" "token" "s3cret" emptyStore none none rfl

/-- C2: for every service and key, when `keychain_delete` succeeds, a
subsequent `keychain_get` on the same `(service, key)` against the
resulting store returns `success = false`. -/
theorem delete_then_get_fails (service key : String) (st : Store)
    (nf df : Option String)
    (h : (keychain_delete service key st nf df).1.success = true) :
    (keychain_get service key (keychain_delete service key st nf df).2
        none none).success = false := by
  cases nf with
  | some e => simp [keychain_delete, entryNew] at h
  | none =>
    cases df with
    | some e => simp [keychain_delete, entryNew, entryDeleteCredential] at h
    | none =>
      cases hl : storeLookup st service key with
      | none => simp [keychain_delete, entryNew, entryDeleteCredential, hl] at h
      | some v =>
        simp [keychain_delete, keychain_get, entryNew, entryDeleteCredential,
          entryGetPassword, hl, storeLookup_erase_self]

/-- Witness for C2 at a concrete input. -/
theorem delete_then_get_fails_witness :
    (keychain_get "argos" "token"
        (keychain_delete "argos" "token"
          (storeInsert emptyStore "argos" "token" "s3cret") none none).2
        none none).success = false :=
  delete_then_get_fails "argos" "token"
    (storeInsert emptyStore "argos" "token" "s3cret") none none rfl

/-- C3: for every service and key holding no stored credential,
`keychain_get` returns `success = false`, whatever the platform faults. -/
theorem get_unwritten_fails (service key : String) (st : Store)
    (nf gf : Option String) (h : storeLookup st service key = none) :
    (keychain_get service key st nf gf).success = false := by
  cases nf with
  | some e => simp [keychain_get, entryNew]
  | none =>
    cases gf with
    | some e => simp [keychain_get, entryNew, entryGetPassword]
    | none => simp [keychain_get, entryNew, entryGetPassword, h]

/-- Witness for C3 at a concrete input. -/
theorem get_unwritten_fails_witness :
    (keychain_get "argos" "token" emptyStore none none).success = false :=
  get_unwritten_fails "argos" "token" emptyStore none none rfl

/-- C4: for each of the three operations, at every input, store state and
platform outcome, `success = true` implies `error = none`. -/
theorem success_implies_no_error (service key value : String) (st : Store)
    (nf f : Option String) :
    ((keychain_set service key value st nf f).1.success = true →
      (keychain_set service key value st nf f).1.error = none) ∧
    ((keychain_get service key st nf f).success = true →
      (keychain_get service key st nf f).error = none) ∧
    ((keychain_delete service key st nf f).1.success = true →
      (keychain_delete service key st nf f).1.error = none) := by
  refine ⟨?_, ?_, ?_⟩
  · cases nf <;> cases f <;>
      simp [keychain_set, entryNew, entrySetPassword]
  · cases nf <;> cases f <;> cases hl : storeLookup st service key <;>
      simp [keychain_get, entryNew, entryGetPassword, hl]
  · cases nf <;> cases f <;> cases hl : storeLookup st service key <;>
      simp [keychain_delete, entryNew, entryDeleteCredential, hl]

/-- Witness for C4 at a concrete input. -/
theorem success_implies_no_error_witness :
    ((keychain_set "argos" "token" "s3cret" emptyStore none none).1.success = true →
      (keychain_set "argos" "token" "s3cret" emptyStore none none).1.error = none) ∧
    ((keychain_get "argos" "token" emptyStore none none).success = true →
      (keychain_get "argos" "token" emptyStore none none).error = none) ∧
    ((keychain_delete "argos" "token" emptyStore none none).1.success = true →
      (keychain_delete "argos" "token" emptyStore none none).1.error = none) :=
  success_implies_no_error "argos" "token" "s3cret" emptyStore none none

/-- C5: on every failure of any of the three operations, from either
failure site, the `error` field is exactly the underlying platform
error's message string, passed through unmodified. -/
theorem error_passthrough_verbatim (service key value e : String)
    (st : Store) (f : Option String) :
    ((keychain_set service key value st (some e) f).1.error = some e) ∧
    ((keychain_set service key value st none (some e)).1.error = some e) ∧
    ((keychain_get service key st (some e) f).error = some e) ∧
    ((keychain_get service key st none (some e)).error = some e) ∧
    (storeLookup st service key = none →
      (keychain_get service key st none none).error = some noEntryError) ∧
    ((keychain_delete service key st (some e) f).1.error = some e) ∧
    ((keychain_delete service key st none (some e)).1.error = some e) ∧
    (storeLookup st service key = none →
      (keychain_delete service key st none none).1.error = some noEntryError) := by
  refine ⟨?_, ?_, ?_, ?_, ?_, ?_, ?_, ?_⟩
  · simp [keychain_set, entryNew, formatError]
  · simp [keychain_set, entryNew, entrySetPassword, formatError]
  · simp [keychain_get, entryNew, formatError]
  · simp [keychain_get, entryNew, entryGetPassword, formatError]
  · intro h
    simp [keychain_get, entryNew, entryGetPassword, formatError, h]
  · simp [keychain_delete, entryNew, formatError]
  · simp [keychain_delete, entryNew, entryDeleteCredential, formatError]
  · intro h
    simp [keychain_delete, entryNew, entryDeleteCredential, formatError, h]

/-- Witness for C5 at a concrete input. -/
theorem error_passthrough_verbatim_witness :
    ((keychain_set "argos" "token" "s3cret" emptyStore
        (some "Platform secure storage failure") none).1.error =
      some "Platform secure storage failure") ∧
    ((keychain_set "argos" "token" "s3cret" emptyStore none
        (some "Platform secure storage failure")).1.error =
      some "Platform secure storage failure") ∧
    ((keychain_get "argos" "token" emptyStore
        (some "Platform secure storage failure") none).error =
      some "Platform secure storage failure") ∧
    ((keychain_get "argos" "token" emptyStore none
        (some "Platform secure storage failure")).error =
      some "Platform secure storage failure") ∧
    (storeLookup emptyStore "argos" "token" = none →
      (keychain_get "argos" "token" emptyStore none none).error =
        some noEntryError) ∧
    ((keychain_delete "argos" "token" emptyStore
        (some "Platform secure storage failure") none).1.error =
      some "Platform secure storage failure") ∧
    ((keychain_delete "argos" "token" emptyStore none
        (some "Platform secure storage failure")).1.error =
      some "Platform secure storage failure") ∧
    (storeLookup emptyStore "argos" "token" = none →
      (keychain_delete "argos" "token" emptyStore none none).1.error =
        some noEntryError) :=
  error_passthrough_verbatim "argos" "token" "s3cret"
    "Platform secure storage failure" emptyStore none

/-- C6: each operation reports `success = false` exactly when the
underlying store operation (entry construction or the set/get/delete
call) fails, and in every such case the failure is delivered in the same
`KeychainResult` record, distinguished only by the `success` flag, with
`error` populated exactly on failure. -/
theorem failure_iff_store_failure (service key value : String) (st : Store)
    (nf f : Option String) :
    ((keychain_set service key value st nf f).1.success = false ↔
      (nf.isSome = true ∨ f.isSome = true)) ∧
    ((keychain_set service key value st nf f).1.success = false ↔
      (keychain_set service key value st nf f).1.error.isSome = true) ∧
    ((keychain_get service key st nf f).success = false ↔
      (nf.isSome = true ∨ f.isSome = true ∨ storeLookup st service key = none)) ∧
    ((keychain_get service key st nf f).success = false ↔
      (keychain_get service key st nf f).error.isSome = true) ∧
    ((keychain_delete service key st nf f).1.success = false ↔
      (nf.isSome = true ∨ f.isSome = true ∨ storeLookup st service key = none)) ∧
    ((keychain_delete service key st nf f).1.success = false ↔
      (keychain_delete service key st nf f).1.error.isSome = true) := by
  refine ⟨?_, ?_, ?_, ?_, ?_, ?_⟩
  · cases nf <;> cases f <;>
      simp [keychain_set, entryNew, entrySetPassword]
  · cases nf <;> cases f <;>
      simp [keychain_set, entryNew, entrySetPassword]
  · cases nf <;> cases f <;> cases hl : storeLookup st service key <;>
      simp [keychain_get, entryNew, entryGetPassword, hl]
  · cases nf <;> cases f <;> cases hl : storeLookup st service key <;>
      simp [keychain_get, entryNew, entryGetPassword, hl]
  · cases nf <;> cases f <;> cases hl : storeLookup st service key <;>
      simp [keychain_delete, entryNew, entryDeleteCredential, hl]
  · cases nf <;> cases f <;> cases hl : storeLookup st service key <;>
      simp [keychain_delete, entryNew, entryDeleteCredential, hl]

/-- Witness for C6 at a concrete input. -/
theorem failure_iff_store_failure_witness :
    ((keychain_set "argos" "token" "s3cret" emptyStore none none).1.success = false ↔
      ((none : Option String).isSome = true ∨ (none : Option String).isSome = true)) ∧
    ((keychain_set "argos" "token" "s3cret" emptyStore none none).1.success = false ↔
      (keychain_set "argos" "token" "s3cret" emptyStore none none).1.error.isSome = true) ∧
    ((keychain_get "argos" "token" emptyStore none none).success = false ↔
      ((none : Option String).isSome = true ∨ (none : Option String).isSome = true ∨
        storeLookup emptyStore "argos" "token" = none)) ∧
    ((keychain_get "argos" "token" emptyStore none none).success = false ↔
      (keychain_get "argos" "token" emptyStore none none).error.isSome = true) ∧
    ((keychain_delete "argos" "token" emptyStore none none).1.success = false ↔
      ((none : Option String).isSome = true ∨ (none : Option String).isSome = true ∨
        storeLookup emptyStore "argos" "token" = none)) ∧
    ((keychain_delete "argos" "token" emptyStore none none).1.success = false ↔
      (keychain_delete "argos" "token" emptyStore none none).1.error.isSome = true) :=
  failure_iff_store_failure "argos" "token" "s3cret" emptyStore none none

/-- C7: at every input, store state and platform outcome, if
`keychain_get` returns `success = true` then its `value` field is
`some` retrieved string. -/
theorem get_success_has_value (service key : String) (st : Store)
    (nf gf : Option String)
    (h : (keychain_get service key st nf gf).success = true) :
    (keychain_get service key st nf gf).value.isSome = true := by
  cases nf with
  | some e => simp [keychain_get, entryNew] at h
  | none =>
    cases gf with
    | some e => simp [keychain_get, entryNew, entryGetPassword] at h
    | none =>
      cases hl : storeLookup st service key with
      | none => simp [keychain_get, entryNew, entryGetPassword, hl] at h
      | some v => simp [keychain_get, entryNew, entryGetPassword, hl]

/-- Witness for C7 at a concrete input. -/
theorem get_success_has_value_witness :
    (keychain_get "argos" "token"
        (storeInsert emptyStore "argos" "token" "s3cret") none none).value.isSome = true :=
  get_success_has_value "argos" "token"
    (storeInsert emptyStore "argos" "token" "s3cret") none none rfl

/-- C8: at every input, store state and platform outcome, the results of
`keychain_set` and `keychain_delete` have `value = none`, on success and
on failure alike. -/
theorem set_delete_value_none (service key value : String) (st : Store)
    (nf f : Option String) :
    (keychain_set service key value st nf f).1.value = none ∧
    (keychain_delete service key st nf f).1.value = none := by
  constructor
  · cases nf <;> cases f <;>
      simp [keychain_set, entryNew, entrySetPassword]
  · cases nf <;> cases f <;> cases hl : storeLookup st service key <;>
      simp [keychain_delete, entryNew, entryDeleteCredential, hl]

/-- Witness for C8 at a concrete input. -/
theorem set_delete_value_none_witness :
    (keychain_set "argos" "token" "s3cret" emptyStore none none).1.value = none ∧
    (keychain_delete "argos" "token" emptyStore none none).1.value = none :=
  set_delete_value_none "argos" "token" "s3cret" emptyStore none none

/-- C9: at every input, store state and platform outcome, the result of
`keychain_get` has `value = some` if and only if `success = true`; in
particular a failed get carries `value = none`. -/
theorem get_value_iff_success (service key : String) (st : Store)
    (nf gf : Option String) :
    ((keychain_get service key st nf gf).success = false →
      (keychain_get service key st nf gf).value = none) ∧
    ((keychain_get service key st nf gf).value.isSome = true ↔
      (keychain_get service key st nf gf).success = true) := by
  constructor
  · cases nf <;> cases gf <;> cases hl : storeLookup st service key <;>
      simp [keychain_get, entryNew, entryGetPassword, hl]
  · cases nf <;> cases gf <;> cases hl : storeLookup st service key <;>
      simp [keychain_get, entryNew, entryGetPassword, hl]

/-- Witness for C9 at a concrete input. -/
theorem get_value_iff_success_witness :
    ((keychain_get "argos" "token" emptyStore none none).success = false →
      (keychain_get "argos" "token" emptyStore none none).value = none) ∧
    ((keychain_get "argos" "token" emptyStore none none).value.isSome = true ↔
      (keychain_get "argos" "token" emptyStore none none).success = true) :=
  get_value_iff_success "argos" "token" emptyStore none none

/-- C10: a successful `keychain_set` changes the store only at
`(service, key)`, and a successful `keychain_delete` removes only the
`(service, key)` entry: every other `(service', key')` pair keeps its
stored value. -/
theorem set_delete_frame (service key value s' k' : String) (st : Store)
    (nf f : Option String) (hne : ¬(s' = service ∧ k' = key)) :
    ((keychain_set service key value st nf f).1.success = true →
      storeLookup (keychain_set service key value st nf f).2 s' k' =
        storeLookup st s' k') ∧
    ((keychain_delete service key st nf f).1.success = true →
      storeLookup (keychain_delete service key st nf f).2 s' k' =
        storeLookup st s' k') ∧
    ((keychain_delete service key st nf f).1.success = true →
      storeLookup (keychain_delete service key st nf f).2 service key = none) := by
  refine ⟨?_, ?_, ?_⟩
  · cases nf <;> cases f <;>
      simp [keychain_set, entryNew, entrySetPassword,
        storeLookup_insert_other st service key value s' k' hne]
  · cases nf <;> cases f <;> cases hl : storeLookup st service key <;>
      simp [keychain_delete, entryNew, entryDeleteCredential, hl,
        storeLookup_erase_other st service key s' k' hne]
  · cases nf <;> cases f <;> cases hl : storeLookup st service key <;>
      simp [keychain_delete, entryNew, entryDeleteCredential, hl,
        storeLookup_erase_self]

/-- Witness for C10 at a concrete input. -/
theorem set_delete_frame_witness :
    (¬(("other" : String) = "argos" ∧ ("token" : String) = "token")) ∧
    (((keychain_set "argos" "token" "s3cret" emptyStore none none).1.success = true →
      storeLookup (keychain_set "argos" "token" "s3cret" emptyStore none none).2
          "other" "token" = storeLookup emptyStore "other" "token") ∧
    ((keychain_delete "argos" "token" emptyStore none none).1.success = true →
      storeLookup (keychain_delete "argos" "token" emptyStore none none).2
          "other" "token" = storeLookup emptyStore "other" "token") ∧
    ((keychain_delete "argos" "token" emptyStore none none).1.success = true →
      storeLookup (keychain_delete "argos" "token" emptyStore none none).2
          "argos" "token" = none)) :=
  ⟨by decide,
   set_delete_frame "argos" "token" "s3cret" "other" "token" emptyStore none none
     (by decide)⟩

end Argos
